import Mathlib

/-!
Shallow embedding of the wiki-proxy server (src/server.js and its variants)
and proofs about its cache layer, upstream adapters and endpoints.

The repository contains three variants of the server:
* variant A (server.js lines 1-223): Map-based TTL cache, Gemini streaming
  `/generate`, `/api/wikipedia` passthrough with a plain `Map` cache;
* variant B (server.js lines 224-312): NodeCache-based `/api/wikipedia`
  passthrough that forwards upstream error status/details;
* variant C (server.js lines 313-530): Map-based TTL cache, JSON `/generate`
  aggregation (Wikipedia + RSS with filtering + DuckDuckGo), and the same
  plain-Map `/api/wikipedia` passthrough as variant A.

Time is modelled as `Nat` milliseconds (`Date.now()`); the JavaScript `Map`
is modelled as an association list over `String` keys.
-/

set_option autoImplicit false

namespace WikiProxy

/-- Item of a parsed RSS feed as produced by `rss-parser`: every field may
be absent. -/
structure FeedItem where
  title : Option String
  contentSnippet : Option String
  content : Option String
  link : Option String
  deriving DecidableEq, Repr

/-- Raw parsed feed (`parser.parseURL` result); only `items` is consumed
by the server. -/
structure RawFeed where
  items : List FeedItem
  deriving DecidableEq, Repr

/-- DuckDuckGo search result shape `{ title, link, snippet }`; fields may
be absent in the upstream payload and are copied through as-is. -/
structure SearchItem where
  title : Option String
  link : Option String
  snippet : Option String
  deriving DecidableEq, Repr

/-- Values stored in the shared cache map: Wikipedia extracts and RSS
headline strings are strings, DuckDuckGo results are search-result lists,
and variant C caches raw parsed RSS feeds. -/
inductive CData where
  | str (s : String)
  | search (rs : List SearchItem)
  | feed (f : RawFeed)
  deriving DecidableEq, Repr

/-- Lookup in a JavaScript `Map`, modelled on an association list:
`map.get(k)` returns the value bound to the first (unique) occurrence of
`k`, or `undefined` (here `none`). -/
def mapGet {α : Type} (c : List (String × α)) (k : String) : Option α :=
  match c with
  | [] => none
  | (k', v) :: rest => if k' = k then some v else mapGet rest k

/-- Update in a JavaScript `Map`: `map.set(k, v)` overwrites an existing
binding in place or appends a new one. -/
def mapSet {α : Type} (c : List (String × α)) (k : String) (v : α) :
    List (String × α) :=
  match c with
  | [] => [(k, v)]
  | (k', v') :: rest => if k' = k then (k, v) :: rest else (k', v') :: mapSet rest k v

/-- Deletion in a JavaScript `Map`: `map.delete(k)` removes the binding for
`k` when present, a no-op otherwise. -/
def mapDelete {α : Type} (c : List (String × α)) (k : String) :
    List (String × α) :=
  match c with
  | [] => []
  | (k', v') :: rest => if k' = k then rest else (k', v') :: mapDelete rest k

/-- Entries of the TTL cache: `{ data, expiry }` where
`expiry = Date.now() + (TTL[type] || 300000)` at write time. -/
structure CacheEntry where
  data : CData
  expiry : Nat
  deriving DecidableEq, Repr

/-- State of the variants A and C `cache = new Map()`. -/
def Cache : Type := List (String × CacheEntry)

/-- TTL table of variant A: `{ wiki: 60*60*1000, rss: 10*60*1000 }`, any
other category falling back to the `|| 300000` default. -/
def TTL_A (type : String) : Nat :=
  if type = "wiki" then 3600000 else if type = "rss" then 600000 else 300000

/-- TTL table of variant C:
`{ wiki: 60*60*1000, rss: 10*60*1000, ddg: 15*60*1000 }`, any other
category falling back to the `|| 300000` default. -/
def TTL_C (type : String) : Nat :=
  if type = "wiki" then 3600000
  else if type = "rss" then 600000
  else if type = "ddg" then 900000
  else 300000

/-- Embedding of `setCache(key, data, type)`:
`cache.set(key, { data, expiry: Date.now() + (TTL[type] || 300000) })`.
The TTL table is a parameter so that variants A and C share the definition. -/
def setCache (ttl : String → Nat) (c : Cache) (key : String) (data : CData)
    (type : String) (now : Nat) : Cache :=
  mapSet c key ⟨data, now + ttl type⟩

/-- Embedding of `getCache(key)`: returns the cached data when the entry
exists and `cached.expiry > Date.now()`; otherwise runs
`cache.delete(key)` and returns `null`. The resulting map is returned
alongside the read value because the miss path mutates it. -/
def getCache (c : Cache) (key : String) (now : Nat) : Option CData × Cache :=
  match mapGet c key with
  | some e => if now < e.expiry then (some e.data, c) else (none, mapDelete c key)
  | none => (none, mapDelete c key)

/-! ### Passthrough endpoint `/api/wikipedia` -/

/-- Escaping of one character inside a `JSON.stringify` string literal
(quotes and backslashes; control characters do not occur in our inputs). -/
def jsonEscapeChar (c : Char) : String :=
  if c = '"' then "\\\"" else if c = '\\' then "\\\\" else String.singleton c

/-- JSON string literal for `s`. -/
def jsonQuote (s : String) : String :=
  "\"" ++ String.join (s.data.map jsonEscapeChar) ++ "\""

/-- Embedding of `JSON.stringify(req.query)`. Express builds `req.query`
as an object whose own-property order, for non-integer-like parameter
names such as the ones used here, is the order in which the names first
appear in the query string, and `JSON.stringify` serializes properties in
that order, so the derived key depends on the supplied order. -/
def jsonStringify (params : List (String × String)) : String :=
  "\x7b" ++ String.intercalate ","
    (params.map fun p => jsonQuote p.1 ++ ":" ++ jsonQuote p.2) ++ "\x7d"

/-- Outcome of the `axios.get` call made by the passthrough endpoint:
a success body, an HTTP error response (axios rejects on non-2xx, with
`error.response` carrying status/statusText/data), a timeout
(`ECONNABORTED`), or a network error with no response. -/
inductive UpstreamHttp where
  | ok (data : String)
  | errStatus (status : Nat) (statusText : String) (body : String)
  | timeout
  | netError (msg : String)
  deriving DecidableEq, Repr

/-- HTTP response sent by a passthrough handler: status code, JSON body
(success data or error message), optional `details` field. -/
structure PassResponse where
  status : Nat
  body : String
  details : Option String
  deriving DecidableEq, Repr

/-- Embedding of the variant A (and C) `/api/wikipedia` handler: cache key
is `JSON.stringify(req.query)`; `wikiNodeCache` is a plain `Map` with no
expiry; any thrown error (including an upstream non-2xx, on which axios
rejects) is answered with status 500 and the error message. The returned
`Bool` records whether the upstream call was made. -/
def apiWikipediaA (store : List (String × String)) (params : List (String × String))
    (up : UpstreamHttp) : PassResponse × List (String × String) × Bool :=
  let cacheKey := jsonStringify params
  match mapGet store cacheKey with
  | some d => (⟨200, d, none⟩, store, false)
  | none =>
    match up with
    | .ok data => (⟨200, data, none⟩, mapSet store cacheKey data, true)
    | .errStatus status statusText _ =>
        (⟨500, "Request failed with status code " ++ toString status ++ " " ++ statusText,
          none⟩, store, true)
    | .timeout => (⟨500, "timeout of 15000ms exceeded", none⟩, store, true)
    | .netError msg => (⟨500, msg, none⟩, store, true)

/-- State of the variant B `NodeCache` (`stdTTL: 600` seconds): each entry
keeps its value and its expiry timestamp in milliseconds. -/
def NodeCacheState : Type := List (String × (String × Nat))

/-- Modelled NodeCache `get`: returns the value while `now` is before the
entry's expiry, `undefined` otherwise. -/
def nodeCacheGet (store : NodeCacheState) (key : String) (now : Nat) : Option String :=
  match mapGet store key with
  | some (v, e) => if now < e then some v else none
  | none => none

/-- Modelled NodeCache `set` with `stdTTL: 600` seconds. -/
def nodeCacheSet (store : NodeCacheState) (key : String) (v : String) (now : Nat) :
    NodeCacheState :=
  mapSet store key (v, now + 600000)

/-- Embedding of the variant B `/api/wikipedia` handler: same
`JSON.stringify(req.query)` key, NodeCache with a 600 s TTL, and an error
path that maps `ECONNABORTED` to 504, an upstream error response to the
upstream's own status with its body in `details`, and anything else
to 500. -/
def apiWikipediaB (store : NodeCacheState) (params : List (String × String))
    (now : Nat) (up : UpstreamHttp) : PassResponse × NodeCacheState × Bool :=
  let cacheKey := jsonStringify params
  match nodeCacheGet store cacheKey now with
  | some d => (⟨200, d, none⟩, store, false)
  | none =>
    match up with
    | .ok data => (⟨200, data, none⟩, nodeCacheSet store cacheKey data now, true)
    | .errStatus status statusText body =>
        (⟨status, "Error fetching from Wikipedia API: " ++ statusText, some body⟩,
          store, true)
    | .timeout => (⟨504, "Request to Wikipedia API timed out.", none⟩, store, true)
    | .netError msg =>
        (⟨500, "An unexpected error occurred: " ++ msg, none⟩, store, true)

/-! ### String helpers shared by the adapters -/

/-- JavaScript `a || d` for an optional string `a`: the default is used
when the value is absent or the empty string (falsy). -/
def jsOr (o : Option String) (d : String) : String :=
  match o with
  | some s => if s = "" then d else s
  | none => d

/-- Contiguous-substring test on character lists, the semantics of
JavaScript `String.prototype.includes`. -/
def charsIncludes (l sub : List Char) : Bool :=
  if sub.isPrefixOf l then true
  else
    match l with
    | [] => false
    | _ :: t => charsIncludes t sub

/-- JavaScript `s.includes(sub)`. -/
def strIncludes (s sub : String) : Bool :=
  charsIncludes s.data sub.data

/-- JavaScript `s.toLowerCase()`, character-wise lowering. -/
def strLower (s : String) : String :=
  ⟨s.data.map Char.toLower⟩

/-- One disjunct of the feed filter:
`item.field && item.field.toLowerCase().includes(prompt.toLowerCase())`
(absent or empty field is falsy and never matches). -/
def optIncludes (o : Option String) (p : String) : Bool :=
  match o with
  | none => false
  | some s => if s = "" then false else strIncludes (strLower s) (strLower p)

/-! ### Feed adapter `fetchRSSFeeds` (variant C) -/

/-- Configured feed source from `feeds.json`. -/
structure Feed where
  name : Option String
  url : String
  deriving DecidableEq, Repr

/-- Outcome `parser.parseURL(feed.url)` would have if invoked now. -/
inductive FeedOutcome where
  | failure
  | success (f : RawFeed)
  deriving DecidableEq, Repr

/-- Formatted article pushed into a feed result: the no-match placeholder
item has only a `title`, matched items have all three fields. -/
structure Article where
  title : String
  description : Option String
  link : Option String
  deriving DecidableEq, Repr

/-- Entry of the list returned by `fetchRSSFeeds`: either
`{ feed, articles }` or `{ feed, error }`. -/
inductive FeedResult where
  | ok (feed : String) (articles : List Article)
  | err (feed : String) (msg : String)
  deriving DecidableEq, Repr

/-- Filter predicate of `fetchRSSFeeds`: case-insensitive substring match
of the prompt against the item's title or content snippet. -/
def itemMatches (prompt : String) (item : FeedItem) : Bool :=
  optIncludes item.title prompt || optIncludes item.contentSnippet prompt

/-- Article-list computation of `fetchRSSFeeds` for one parsed feed: filter
by the prompt; if nothing matches, substitute the single placeholder item;
otherwise keep the first 5 matches and format each as
title/description/link with JavaScript `||` defaults. -/
def filterArticles (f : RawFeed) (prompt : String) : List Article :=
  let matched := f.items.filter (itemMatches prompt)
  if matched.isEmpty then
    [⟨"No matching articles found for \"" ++ prompt ++ "\"", none, none⟩]
  else
    (matched.take 5).map fun item =>
      ⟨jsOr item.title "Untitled",
       some (jsOr item.contentSnippet (jsOr item.content "No description available.")),
       some (jsOr item.link "No link available.")⟩

/-- Embedding of one iteration of the `fetchRSSFeeds` loop body: read the
raw feed from the cache under `rss:` + url, fetch upstream only on a miss,
filter with this call's own prompt, and re-cache the raw (unfiltered)
parsed feed on every successful pass. The `Bool` records whether the
upstream fetch happened. A cached value that is not a parsed feed would
make `parsedFeed.items.filter` throw, landing in the error branch. -/
def fetchOneFeed (feed : Feed) (prompt : String) (c : Cache) (now : Nat)
    (up : String → FeedOutcome) : FeedResult × Cache × Bool :=
  let cacheKey := "rss:" ++ feed.url
  let feedName := jsOr feed.name feed.url
  match getCache c cacheKey now with
  | (some (CData.feed pf), c1) =>
      (.ok feedName (filterArticles pf prompt),
       setCache TTL_C c1 cacheKey (.feed pf) "rss" now, false)
  | (some _, c1) => (.err feedName "Error fetching feed", c1, false)
  | (none, c1) =>
      match up feed.url with
      | .failure => (.err feedName "Error fetching feed", c1, true)
      | .success pf =>
          (.ok feedName (filterArticles pf prompt),
           setCache TTL_C c1 cacheKey (.feed pf) "rss" now, true)

/-- Embedding of `fetchRSSFeeds(feeds, prompt)`: sequential loop over the
configured feeds threading the cache; the `Nat` counts upstream fetches. -/
def fetchRSSFeeds (feeds : List Feed) (prompt : String) (c : Cache) (now : Nat)
    (up : String → FeedOutcome) : List FeedResult × Cache × Nat :=
  match feeds with
  | [] => ([], c, 0)
  | f :: rest =>
    let r := fetchOneFeed f prompt c now up
    let rs := fetchRSSFeeds rest prompt r.2.1 now up
    (r.1 :: rs.1, rs.2.1, (if r.2.2 then 1 else 0) + rs.2.2)

/-! ### Summary adapter `fetchWikipedia` (variant C) -/

/-- Outcome of the Wikipedia API call: a thrown failure (network error,
timeout, malformed payload) or the `query.pages` mapping, each page id
bound to an optional `extract`. -/
inductive WikiOutcome where
  | failure
  | success (pages : List (String × Option String))
  deriving DecidableEq, Repr

/-- Embedding of variant C's `fetchWikipedia(query)`: serve from cache
under `wiki:` + query when live; otherwise call upstream, take the first
page's `extract || 'No Wikipedia content found.'`, cache it under the
`wiki` category and return it; any thrown error (including an empty pages
object, where indexing by `undefined` throws) yields the fixed string
`'Error fetching Wikipedia.'` with no cache write. The `Bool` records
whether the upstream call was made. -/
def fetchWikipedia (query : String) (c : Cache) (now : Nat) (up : WikiOutcome) :
    CData × Cache × Bool :=
  let cacheKey := "wiki:" ++ query
  match getCache c cacheKey now with
  | (some d, c1) => (d, c1, false)
  | (none, c1) =>
    match up with
    | .failure => (.str "Error fetching Wikipedia.", c1, true)
    | .success [] => (.str "Error fetching Wikipedia.", c1, true)
    | .success ((_, e) :: _) =>
        let extract := jsOr e "No Wikipedia content found."
        (.str extract, setCache TTL_C c1 cacheKey (.str extract) "wiki" now, true)

/-! ### Search adapter `fetchDuckDuckGo` (variant C) -/

/-- Outcome of the DuckDuckGo API call: a thrown failure or a payload
whose `results` field may be absent (`response.data?.results || []`). -/
inductive DdgOutcome where
  | failure
  | success (results : Option (List SearchItem))
  deriving DecidableEq, Repr

/-- Formatting of DuckDuckGo results:
`results.slice(0, 10).map((r) => ({ title, link, snippet }))`. -/
def ddgFormat (rs : List SearchItem) : List SearchItem :=
  (rs.take 10).map fun r => ⟨r.title, r.link, r.snippet⟩

/-- Embedding of `fetchDuckDuckGo(query)`: serve from cache under
`ddg:` + query when live; otherwise call upstream, format and cache the
first 10 results under the `ddg` category; on failure return the single
error-describing result without writing the cache. -/
def fetchDuckDuckGo (query : String) (c : Cache) (now : Nat) (up : DdgOutcome) :
    CData × Cache × Bool :=
  let cacheKey := "ddg:" ++ query
  match getCache c cacheKey now with
  | (some d, c1) => (d, c1, false)
  | (none, c1) =>
    match up with
    | .failure =>
        (.search [⟨some "Error fetching DuckDuckGo results", some "", some ""⟩], c1, true)
    | .success results =>
        let formatted := ddgFormat (results.getD [])
        (.search formatted, setCache TTL_C c1 cacheKey (.search formatted) "ddg" now, true)

/-! ### Aggregation endpoint `/generate` (variant C) -/

/-- Response of the variant C `/generate` handler. -/
structure GenResponse where
  status : Nat
  wikipedia : Option CData
  rss : Option (List FeedResult)
  duckduckgo : Option CData
  error : Option String
  deriving DecidableEq, Repr

/-- Embedding of variant C's `app.post('/generate')`: a missing or falsy
`prompt` is answered 400 `Missing prompt` before any adapter runs;
otherwise the three adapters are invoked in sequence and their outputs are
returned in a 200 JSON payload. The `Nat` counts upstream calls made. -/
def generateHandler (feeds : List Feed) (body : Option String) (c : Cache) (now : Nat)
    (wikiUp : WikiOutcome) (feedUp : String → FeedOutcome) (ddgUp : DdgOutcome) :
    GenResponse × Cache × Nat :=
  match body with
  | none => (⟨400, none, none, none, some "Missing prompt"⟩, c, 0)
  | some prompt =>
    if prompt = "" then (⟨400, none, none, none, some "Missing prompt"⟩, c, 0)
    else
      let w := fetchWikipedia prompt c now wikiUp
      let r := fetchRSSFeeds feeds prompt w.2.1 now feedUp
      let d := fetchDuckDuckGo prompt r.2.1 now ddgUp
      (⟨200, some w.1, some r.1, some d.1, none⟩, d.2.1,
        (if w.2.2 then 1 else 0) + r.2.2 + (if d.2.2 then 1 else 0))

/-! ### Generative-text adapter, the Gemini loop of variant A's `/generate` -/

/-- Outcome of one `(key, model)` streaming attempt: `fail` covers a
rejected fetch or a non-OK status (thrown before any chunk is read),
`streamFail` an error thrown by `reader.read()` after the listed chunks
were already written to the response, `success` a stream read to
completion. -/
inductive AttemptOutcome where
  | fail
  | streamFail (chunks : List String)
  | success (chunks : List String)
  deriving DecidableEq, Repr

/-- Inner loop over models for one key: returns the chunks written by
`res.write` during these attempts and whether one succeeded (which breaks
out). Chunks of a `streamFail` attempt were already written before its
error was caught. -/
def tryModels (key : String) (models : List String)
    (out : String → String → AttemptOutcome) : List String × Bool :=
  match models with
  | [] => ([], false)
  | m :: rest =>
    match out key m with
    | .success cs => (cs, true)
    | .fail => tryModels key rest out
    | .streamFail cs =>
        let r := tryModels key rest out
        (cs ++ r.1, r.2)

/-- Outer loop over keys (`outer:` label): stops at the first key whose
model loop succeeded. -/
def tryKeys (keys models : List String) (out : String → String → AttemptOutcome) :
    List String × Bool :=
  match keys with
  | [] => ([], false)
  | k :: rest =>
    let r := tryModels k models out
    if r.2 then (r.1, true)
    else
      let r2 := tryKeys rest models out
      (r.1 ++ r2.1, r2.2)

/-- Embedding of the Gemini fallback loop of variant A's `/generate`: the
returned list is the sequence of strings written into the streamed
response; when no combination succeeds the terminal marker is written. -/
def geminiGenerate (keys models : List String)
    (out : String → String → AttemptOutcome) : List String :=
  let r := tryKeys keys models out
  if r.2 then r.1 else r.1 ++ ["Error: All Gemini models and API keys failed."]

/-- Credential-by-model combinations in attempt order: keys outermost,
models innermost. -/
def combos (keys models : List String) : List (String × String) :=
  match keys with
  | [] => []
  | k :: rest => models.map (fun m => (k, m)) ++ combos rest models

/-- Specification-side reference for the fallback chain (from the spec's
words, for comparison with `geminiGenerate`): scan the combinations in
order and return the first successful attempt's chunks, if any. -/
def firstSuccessChunks (cs : List (String × String))
    (out : String → String → AttemptOutcome) : Option (List String) :=
  match cs with
  | [] => none
  | (k, m) :: rest =>
    match out k m with
    | .success chunks => some chunks
    | _ => firstSuccessChunks rest out

/-- Recognizer for mid-stream failures. -/
def AttemptOutcome.isMidStreamFail : AttemptOutcome → Bool
  | .streamFail _ => true
  | _ => false

/-- Concrete outcome assignment where the first model fails mid-stream
after emitting one chunk and the second model succeeds. -/
def outLeak (_key m : String) : AttemptOutcome :=
  if m = "m1" then .streamFail ["partial"] else .success ["good"]

/-- Concrete outcome assignment with no mid-stream failures: the first
model fails before streaming, the second succeeds. -/
def outMixed (_key m : String) : AttemptOutcome :=
  if m = "m1" then .fail else .success ["ok-chunk"]

/-- Iteration of the embedded feed-adapter loop body for one feed at a
sequence of call times, threading the cache and counting upstream
fetches. -/
def feedCallTimes (f : Feed) (prompt : String) (c : Cache) (ts : List Nat)
    (up : String → FeedOutcome) : Cache × Nat :=
  match ts with
  | [] => (c, 0)
  | t :: rest =>
    let r := fetchOneFeed f prompt c t up
    let s := feedCallTimes f prompt r.2.1 rest up
    (s.1, (if r.2.2 then 1 else 0) + s.2)

/-! ## Theorems

General lemmas about the map and cache operations, then one theorem per
claim of the specification review. -/

theorem mapGet_mapSet_same {α : Type} (c : List (String × α)) (k : String) (v : α) :
    mapGet (mapSet c k v) k = some v := by
  induction c with
  | nil => simp [mapSet, mapGet]
  | cons hd tl ih =>
    obtain ⟨k', v'⟩ := hd
    by_cases h : k' = k <;> simp [mapSet, mapGet, h, ih]

theorem mapGet_mapSet_other {α : Type} (c : List (String × α)) (k k' : String) (v : α)
    (h : k' ≠ k) : mapGet (mapSet c k v) k' = mapGet c k' := by
  have h' : ¬ k = k' := fun hh => h hh.symm
  induction c with
  | nil => simp [mapSet, mapGet, h']
  | cons hd tl ih =>
    obtain ⟨k0, v0⟩ := hd
    by_cases h0 : k0 = k <;> by_cases h1 : k0 = k' <;>
      simp_all [mapSet, mapGet, h']

theorem mapGet_mapDelete_same {α : Type} (c : List (String × α)) (k : String)
    (hnd : (c.map Prod.fst).Nodup) : mapGet (mapDelete c k) k = none := by
  induction c with
  | nil => simp [mapDelete, mapGet]
  | cons hd tl ih =>
    obtain ⟨k', v'⟩ := hd
    simp only [List.map_cons, List.nodup_cons] at hnd
    by_cases h : k' = k
    · subst h
      simp only [mapDelete, if_pos rfl]
      clear ih
      induction tl with
      | nil => simp [mapGet]
      | cons hd2 tl2 ih2 =>
        obtain ⟨k2, v2⟩ := hd2
        simp only [List.map_cons, List.mem_cons, List.nodup_cons] at hnd
        have hk2 : k2 ≠ k' := fun hh => hnd.1 (Or.inl hh.symm)
        simp only [mapGet, if_neg hk2]
        exact ih2 ⟨fun hm => hnd.1 (Or.inr hm), hnd.2.2⟩
    · simp only [mapDelete, if_neg h, mapGet, if_neg h]
      exact ih hnd.2

theorem mapDelete_eq_of_mapGet_none {α : Type} (c : List (String × α)) (k : String)
    (h : mapGet c k = none) : mapDelete c k = c := by
  induction c with
  | nil => rfl
  | cons hd tl ih =>
    obtain ⟨k', v'⟩ := hd
    by_cases hk : k' = k
    · simp [mapGet, hk] at h
    · simp only [mapGet, if_neg hk] at h
      simp [mapDelete, if_neg hk, ih h]

theorem mapSet_fst_mem {α : Type} (c : List (String × α)) (k a : String) (v : α)
    (h : a ∈ (mapSet c k v).map Prod.fst) : a = k ∨ a ∈ c.map Prod.fst := by
  induction c with
  | nil => simp [mapSet] at h; exact Or.inl h
  | cons hd tl ih =>
    obtain ⟨k', v'⟩ := hd
    by_cases hk : k' = k
    · simp only [mapSet, if_pos hk, List.map_cons, List.mem_cons] at h
      rcases h with h | h
      · exact Or.inl h
      · exact Or.inr (by simp [h])
    · simp only [mapSet, if_neg hk, List.map_cons, List.mem_cons] at h
      rcases h with h | h
      · exact Or.inr (by simp [h])
      · rcases ih h with h' | h'
        · exact Or.inl h'
        · exact Or.inr (by simp [h'])

theorem mapSet_fst_nodup {α : Type} (c : List (String × α)) (k : String) (v : α)
    (hnd : (c.map Prod.fst).Nodup) : ((mapSet c k v).map Prod.fst).Nodup := by
  induction c with
  | nil => simp [mapSet]
  | cons hd tl ih =>
    obtain ⟨k', v'⟩ := hd
    simp only [List.map_cons, List.nodup_cons] at hnd
    by_cases hk : k' = k
    · subst hk
      simpa [mapSet, List.nodup_cons] using hnd
    · simp only [mapSet, if_neg hk, List.map_cons, List.nodup_cons]
      refine ⟨fun hm => ?_, ih hnd.2⟩
      rcases mapSet_fst_mem tl k k' v hm with h' | h'
      · exact hk h'
      · exact hnd.1 h'

theorem TTL_A_pos (type : String) : 0 < TTL_A type := by
  unfold TTL_A
  split <;> [decide; skip]
  split <;> decide

theorem getCache_of_mapGet_none (c : Cache) (key : String) (now : Nat)
    (h : mapGet c key = none) : getCache c key now = (none, c) := by
  simp [getCache, h, mapDelete_eq_of_mapGet_none c key h]

/-- C3: for the TTL cache, `get(key)` performed immediately after
`set(key, value, category)` with no clock advance returns the value, and
once the category's TTL has elapsed since the set, `get(key)` returns
absent and deletes the entry from the map on that same observation (lazy
eviction). -/
theorem C3_ttl_set_get_expiry (c : Cache) (key : String) (d : CData) (type : String)
    (now t' : Nat) (hnd : (c.map Prod.fst).Nodup) (ht : now + TTL_A type ≤ t') :
    (getCache (setCache TTL_A c key d type now) key now).1 = some d ∧
    (getCache (setCache TTL_A c key d type now) key t').1 = none ∧
    mapGet (getCache (setCache TTL_A c key d type now) key t').2 key = none := by
  have hget := mapGet_mapSet_same c key (⟨d, now + TTL_A type⟩ : CacheEntry)
  refine ⟨?_, ?_, ?_⟩
  · simp [getCache, setCache, hget, Nat.lt_add_of_pos_right (TTL_A_pos type)]
  · simp [getCache, setCache, hget, Nat.not_lt.mpr ht]
  · simp only [getCache, setCache, hget, if_neg (Nat.not_lt.mpr ht)]
    exact mapGet_mapDelete_same _ key
      (mapSet_fst_nodup c key (⟨d, now + TTL_A type⟩ : CacheEntry) hnd)

/-- Witness for C3: category `wiki`, written at time 0, read at time 0 and
at time 3600000 (one TTL later). -/
theorem C3_ttl_set_get_expiry_witness :
    ((([] : Cache).map Prod.fst).Nodup ∧ 0 + TTL_A "wiki" ≤ 3600000) ∧
    ((getCache (setCache TTL_A [] "k" (CData.str "v") "wiki" 0) "k" 0).1
        = some (CData.str "v") ∧
      (getCache (setCache TTL_A [] "k" (CData.str "v") "wiki" 0) "k" 3600000).1 = none ∧
      mapGet (getCache (setCache TTL_A [] "k" (CData.str "v") "wiki" 0) "k" 3600000).2 "k"
        = none) :=
  ⟨⟨by decide, by decide⟩,
    C3_ttl_set_get_expiry [] "k" (CData.str "v") "wiki" 0 3600000 (by decide) (by decide)⟩

/-- C7: a request whose JSON body lacks the `prompt` field (the empty,
falsy prompt included) is answered with the 400 client error
`Missing prompt`; no adapter is invoked, no upstream call is made and the
cache is untouched. -/
theorem C7_missing_prompt_400 (feeds : List Feed) (c : Cache) (now : Nat)
    (wu : WikiOutcome) (fu : String → FeedOutcome) (du : DdgOutcome) :
    generateHandler feeds none c now wu fu du
      = (⟨400, none, none, none, some "Missing prompt"⟩, c, 0) ∧
    generateHandler feeds (some "") c now wu fu du
      = (⟨400, none, none, none, some "Missing prompt"⟩, c, 0) :=
  ⟨rfl, by simp [generateHandler]⟩

/-- C9: when the upstream call fails, both the summary and the search
adapter return their error placeholder to the caller, leave the cache
exactly as it was (the placeholder is never written), and a subsequent
call with the same query attempts the upstream again instead of serving a
cached error. -/
theorem C9_error_placeholder_not_cached (q : String) (c : Cache) (now t' : Nat)
    (wu : WikiOutcome) (du : DdgOutcome)
    (hw : mapGet c ("wiki:" ++ q) = none) (hd : mapGet c ("ddg:" ++ q) = none) :
    (fetchWikipedia q c now .failure
        = (.str "Error fetching Wikipedia.", c, true) ∧
      (fetchWikipedia q c t' wu).2.2 = true) ∧
    (fetchDuckDuckGo q c now .failure
        = (.search [⟨some "Error fetching DuckDuckGo results", some "", some ""⟩], c, true) ∧
      (fetchDuckDuckGo q c t' du).2.2 = true) := by
  have hgw := getCache_of_mapGet_none c ("wiki:" ++ q) now hw
  have hgw' := getCache_of_mapGet_none c ("wiki:" ++ q) t' hw
  have hgd := getCache_of_mapGet_none c ("ddg:" ++ q) now hd
  have hgd' := getCache_of_mapGet_none c ("ddg:" ++ q) t' hd
  refine ⟨⟨?_, ?_⟩, ⟨?_, ?_⟩⟩
  · simp [fetchWikipedia, hgw]
  · rcases wu with _ | pages
    · simp [fetchWikipedia, hgw']
    · rcases pages with _ | ⟨⟨pid, e⟩, rest⟩ <;> simp [fetchWikipedia, hgw']
  · simp [fetchDuckDuckGo, hgd]
  · rcases du with _ | results <;> simp [fetchDuckDuckGo, hgd']

/-- Witness for C9: query `q` against the empty cache at times 0 and 5. -/
theorem C9_error_placeholder_not_cached_witness :
    (mapGet ([] : Cache) ("wiki:" ++ "q") = none ∧
      mapGet ([] : Cache) ("ddg:" ++ "q") = none) ∧
    ((fetchWikipedia "q" [] 0 .failure
        = (.str "Error fetching Wikipedia.", [], true) ∧
      (fetchWikipedia "q" [] 5 .failure).2.2 = true) ∧
     (fetchDuckDuckGo "q" [] 0 .failure
        = (.search [⟨some "Error fetching DuckDuckGo results", some "", some ""⟩], [], true) ∧
      (fetchDuckDuckGo "q" [] 5 .failure).2.2 = true)) :=
  ⟨⟨rfl, rfl⟩, C9_error_placeholder_not_cached "q" [] 0 5 .failure .failure rfl rfl⟩

theorem getCache_hit (c : Cache) (key : String) (now : Nat) (e : CacheEntry)
    (hget : mapGet c key = some e) (hnow : now < e.expiry) :
    getCache c key now = (some e.data, c) := by
  simp [getCache, hget, hnow]

theorem fetchOneFeed_miss_success (f : Feed) (prompt : String) (c : Cache) (now : Nat)
    (up : String → FeedOutcome) (pf : RawFeed)
    (hmiss : mapGet c ("rss:" ++ f.url) = none) (hup : up f.url = .success pf) :
    fetchOneFeed f prompt c now up
      = (.ok (jsOr f.name f.url) (filterArticles pf prompt),
         mapSet c ("rss:" ++ f.url) ⟨.feed pf, now + 600000⟩, true) := by
  simp [fetchOneFeed, getCache_of_mapGet_none c _ now hmiss, hup, setCache, TTL_C]

theorem fetchOneFeed_hit (f : Feed) (prompt : String) (c : Cache) (now : Nat)
    (up : String → FeedOutcome) (pf : RawFeed) (e : Nat)
    (hget : mapGet c ("rss:" ++ f.url) = some ⟨.feed pf, e⟩) (hnow : now < e) :
    fetchOneFeed f prompt c now up
      = (.ok (jsOr f.name f.url) (filterArticles pf prompt),
         mapSet c ("rss:" ++ f.url) ⟨.feed pf, now + 600000⟩, false) := by
  simp [fetchOneFeed, getCache_hit c _ now ⟨.feed pf, e⟩ hget hnow, setCache, TTL_C]

/-- C2: two distinct queries against the same feed inside the `rss` TTL
window cause at most one upstream fetch; the cached value is the raw
unfiltered parsed feed; each call's article list is recomputed by applying
its own query filter to the shared cached feed, so (last conjunct) the two
calls can return different filtered lists. -/
theorem C2_one_fetch_per_ttl_filter_per_query (f : Feed) (pf : RawFeed) (q1 q2 : String)
    (c : Cache) (t0 t1 : Nat) (up1 up2 : String → FeedOutcome)
    (hmiss : mapGet c ("rss:" ++ f.url) = none)
    (hup : up1 f.url = .success pf)
    (ht : t1 < t0 + 600000) :
    (fetchRSSFeeds [f] q1 c t0 up1).2.2 = 1 ∧
    (fetchRSSFeeds [f] q1 c t0 up1).1
      = [.ok (jsOr f.name f.url) (filterArticles pf q1)] ∧
    mapGet (fetchRSSFeeds [f] q1 c t0 up1).2.1 ("rss:" ++ f.url)
      = some ⟨.feed pf, t0 + 600000⟩ ∧
    (fetchRSSFeeds [f] q2 (fetchRSSFeeds [f] q1 c t0 up1).2.1 t1 up2).2.2 = 0 ∧
    (fetchRSSFeeds [f] q2 (fetchRSSFeeds [f] q1 c t0 up1).2.1 t1 up2).1
      = [.ok (jsOr f.name f.url) (filterArticles pf q2)] ∧
    ∃ (pf' : RawFeed) (qa qb : String), filterArticles pf' qa ≠ filterArticles pf' qb := by
  have h1 := fetchOneFeed_miss_success f q1 c t0 up1 pf hmiss hup
  have hc2 : (fetchRSSFeeds [f] q1 c t0 up1).2.1
      = mapSet c ("rss:" ++ f.url) ⟨.feed pf, t0 + 600000⟩ := by
    simp [fetchRSSFeeds, h1]
  have hget2 : mapGet (fetchRSSFeeds [f] q1 c t0 up1).2.1 ("rss:" ++ f.url)
      = some ⟨.feed pf, t0 + 600000⟩ := by
    rw [hc2]; exact mapGet_mapSet_same c _ _
  have h2 := fetchOneFeed_hit f q2 (mapSet c ("rss:" ++ f.url) ⟨.feed pf, t0 + 600000⟩)
    t1 up2 pf (t0 + 600000) (mapGet_mapSet_same c _ _) ht
  refine ⟨by simp [fetchRSSFeeds, h1], by simp [fetchRSSFeeds, h1], hget2, ?_, ?_,
    ⟨⟨[⟨some "Alpha news", none, none, none⟩]⟩, "Alpha", "zz", by decide⟩⟩
  · rw [hc2]
    simp [fetchRSSFeeds, h2]
  · rw [hc2]
    simp [fetchRSSFeeds, h2]

/-- Witness for C2: one feed, raw feed with a single item titled
`Alpha news`, queries `Alpha` and `zz`, calls at times 0 and 1. -/
theorem C2_one_fetch_per_ttl_filter_per_query_witness :
    (mapGet ([] : Cache) ("rss:" ++ "u") = none ∧
      (fun _ : String => FeedOutcome.success ⟨[⟨some "Alpha news", none, none, none⟩]⟩) "u"
        = .success ⟨[⟨some "Alpha news", none, none, none⟩]⟩ ∧
      (1 : Nat) < 0 + 600000) ∧
    (fetchRSSFeeds [⟨none, "u"⟩] "Alpha" [] 0
        (fun _ => .success ⟨[⟨some "Alpha news", none, none, none⟩]⟩)).2.2 = 1 ∧
    (fetchRSSFeeds [⟨none, "u"⟩] "zz"
        (fetchRSSFeeds [⟨none, "u"⟩] "Alpha" [] 0
          (fun _ => .success ⟨[⟨some "Alpha news", none, none, none⟩]⟩)).2.1 1
        (fun _ => .failure)).2.2 = 0 :=
  have h := C2_one_fetch_per_ttl_filter_per_query ⟨none, "u"⟩
    ⟨[⟨some "Alpha news", none, none, none⟩]⟩ "Alpha" "zz" [] 0 1
    (fun _ => .success ⟨[⟨some "Alpha news", none, none, none⟩]⟩) (fun _ => .failure)
    rfl rfl (by decide)
  ⟨⟨rfl, rfl, by decide⟩, h.1, h.2.2.2.1⟩

theorem filterArticles_ne_nil (pf : RawFeed) (q : String) : filterArticles pf q ≠ [] := by
  unfold filterArticles
  cases hmm : pf.items.filter (itemMatches q) with
  | nil => simp [hmm]
  | cons a t => simp [hmm]

theorem fetchOneFeed_ok_articles (feed : Feed) (q : String) (c : Cache) (now : Nat)
    (up : String → FeedOutcome) (name : String) (articles : List Article)
    (hok : (fetchOneFeed feed q c now up).1 = FeedResult.ok name articles) :
    ∃ pf : RawFeed, articles = filterArticles pf q := by
  simp only [fetchOneFeed] at hok
  rcases hg : getCache c ("rss:" ++ feed.url) now with ⟨od, c1⟩
  rw [hg] at hok
  rcases od with _ | cd
  · rcases hu : up feed.url with _ | pf'
    · rw [hu] at hok; simp at hok
    · rw [hu] at hok
      simp only [FeedResult.ok.injEq] at hok
      exact ⟨pf', hok.2.symm⟩
  · rcases cd with s | rs | pf'
    · simp at hok
    · simp at hok
    · simp only [FeedResult.ok.injEq] at hok
      exact ⟨pf', hok.2.symm⟩

/-- C8: when a feed's fetch or cache read succeeds and the query matches
zero items, the returned article list is exactly the one placeholder item
naming the query; a successful feed result never carries an empty article
list. -/
theorem C8_zero_match_placeholder (pf : RawFeed) (q : String) :
    filterArticles pf q ≠ [] ∧
    (pf.items.filter (itemMatches q) = [] →
      filterArticles pf q
        = [⟨"No matching articles found for \"" ++ q ++ "\"", none, none⟩]) ∧
    (∀ (feed : Feed) (c : Cache) (now : Nat) (up : String → FeedOutcome)
        (name : String) (articles : List Article),
      (fetchOneFeed feed q c now up).1 = FeedResult.ok name articles →
        articles ≠ []) := by
  refine ⟨filterArticles_ne_nil pf q, ?_, ?_⟩
  · intro hz
    simp [filterArticles, hz]
  · intro feed c now up name articles hok
    obtain ⟨pf', hpf'⟩ := fetchOneFeed_ok_articles feed q c now up name articles hok
    rw [hpf']
    exact filterArticles_ne_nil pf' q

/-- Witness for C8: feed with one item titled `Alpha news` and the
non-matching query `zz`. -/
theorem C8_zero_match_placeholder_witness :
    (⟨[⟨some "Alpha news", none, none, none⟩]⟩ : RawFeed).items.filter (itemMatches "zz")
      = [] ∧
    filterArticles ⟨[⟨some "Alpha news", none, none, none⟩]⟩ "zz"
      = [⟨"No matching articles found for \"" ++ "zz" ++ "\"", none, none⟩] :=
  ⟨by decide,
    (C8_zero_match_placeholder ⟨[⟨some "Alpha news", none, none, none⟩]⟩ "zz").2.1
      (by decide)⟩

theorem feedCallTimes_chain_zero (f : Feed) (prompt : String)
    (up : String → FeedOutcome) :
    ∀ (ts : List Nat) (t0 : Nat) (c : Cache) (pf : RawFeed) (e : Nat),
      mapGet c ("rss:" ++ f.url) = some ⟨.feed pf, e⟩ → t0 < e →
      List.Chain (fun a b => b < a + 600000) t0 ts →
      (feedCallTimes f prompt c (t0 :: ts) up).2 = 0 := by
  intro ts
  induction ts with
  | nil =>
    intro t0 c pf e hget ht _
    simp [feedCallTimes, fetchOneFeed_hit f prompt c t0 up pf e hget ht]
  | cons t1 rest ih =>
    intro t0 c pf e hget ht hchain
    have hone := fetchOneFeed_hit f prompt c t0 up pf e hget ht
    rcases hchain with _ | ⟨hlt, hchain'⟩
    have hget' : mapGet (mapSet c ("rss:" ++ f.url) ⟨.feed pf, t0 + 600000⟩)
        ("rss:" ++ f.url) = some ⟨.feed pf, t0 + 600000⟩ :=
      mapGet_mapSet_same c _ _
    have hrec := ih t1 (mapSet c ("rss:" ++ f.url) ⟨.feed pf, t0 + 600000⟩) pf
      (t0 + 600000) hget' hlt hchain'
    simp [feedCallTimes, hone] at hrec ⊢
    exact hrec

theorem fetchOneFeed_ok_entry (feed : Feed) (q : String) (c : Cache) (now : Nat)
    (up : String → FeedOutcome) (name : String) (articles : List Article)
    (hok : (fetchOneFeed feed q c now up).1 = FeedResult.ok name articles) :
    ∃ pf : RawFeed,
      mapGet (fetchOneFeed feed q c now up).2.1 ("rss:" ++ feed.url)
        = some ⟨.feed pf, now + 600000⟩ := by
  rcases hg : getCache c ("rss:" ++ feed.url) now with ⟨od, c1⟩
  rcases od with _ | cd
  · rcases hu : up feed.url with _ | pf'
    · have heq : fetchOneFeed feed q c now up
          = (.err (jsOr feed.name feed.url) "Error fetching feed", c1, true) := by
        simp only [fetchOneFeed, hg, hu]
      rw [heq] at hok
      simp at hok
    · have heq : fetchOneFeed feed q c now up
          = (.ok (jsOr feed.name feed.url) (filterArticles pf' q),
             setCache TTL_C c1 ("rss:" ++ feed.url) (.feed pf') "rss" now, true) := by
        simp only [fetchOneFeed, hg, hu]
      rw [heq]
      exact ⟨pf', by simp [setCache, TTL_C, mapGet_mapSet_same]⟩
  · rcases cd with s | rs | pf'
    · have heq : fetchOneFeed feed q c now up
          = (.err (jsOr feed.name feed.url) "Error fetching feed", c1, false) := by
        simp only [fetchOneFeed, hg]
      rw [heq] at hok
      simp at hok
    · have heq : fetchOneFeed feed q c now up
          = (.err (jsOr feed.name feed.url) "Error fetching feed", c1, false) := by
        simp only [fetchOneFeed, hg]
      rw [heq] at hok
      simp at hok
    · have heq : fetchOneFeed feed q c now up
          = (.ok (jsOr feed.name feed.url) (filterArticles pf' q),
             setCache TTL_C c1 ("rss:" ++ feed.url) (.feed pf') "rss" now, false) := by
        simp only [fetchOneFeed, hg]
      rw [heq]
      exact ⟨pf', by simp [setCache, TTL_C, mapGet_mapSet_same]⟩

/-- C10: a successful feed invocation answered from the cache makes no
upstream fetch yet rewrites the feed's cache entry with the same raw feed
and a fresh expiry of now plus the 600000 ms feed TTL; indeed every
successful invocation (third conjunct) leaves an entry expiring at its
call time plus the TTL; consequently a chain of calls each made within the
TTL window of the previous one never refetches the feed from upstream. -/
theorem C10_cache_hit_refreshes_expiry (f : Feed) (prompt : String) (c : Cache)
    (pf : RawFeed) (e now : Nat) (up : String → FeedOutcome)
    (hget : mapGet c ("rss:" ++ f.url) = some ⟨.feed pf, e⟩) (hnow : now < e) :
    ((fetchOneFeed f prompt c now up).2.2 = false ∧
      mapGet (fetchOneFeed f prompt c now up).2.1 ("rss:" ++ f.url)
        = some ⟨.feed pf, now + 600000⟩) ∧
    (∀ ts : List Nat, List.Chain (fun a b => b < a + 600000) now ts →
      (feedCallTimes f prompt c (now :: ts) up).2 = 0) ∧
    (∀ (c' : Cache) (t : Nat) (up' : String → FeedOutcome) (name : String)
        (arts : List Article),
      (fetchOneFeed f prompt c' t up').1 = FeedResult.ok name arts →
      ∃ pf' : RawFeed,
        mapGet (fetchOneFeed f prompt c' t up').2.1 ("rss:" ++ f.url)
          = some ⟨.feed pf', t + 600000⟩) := by
  have hone := fetchOneFeed_hit f prompt c now up pf e hget hnow
  refine ⟨⟨by simp [hone], ?_⟩,
    fun ts hchain => feedCallTimes_chain_zero f prompt up ts now c pf e hget hnow hchain,
    fun c' t up' name arts hok => fetchOneFeed_ok_entry f prompt c' t up' name arts hok⟩
  rw [hone]
  exact mapGet_mapSet_same c _ _

/-- Witness for C10: an entry written with expiry 1, read at time 0, then
read again at times 5 and 300000, each within the previous TTL window. -/
theorem C10_cache_hit_refreshes_expiry_witness :
    (mapGet [("rss:" ++ "u", (⟨.feed ⟨[]⟩, 1⟩ : CacheEntry))] ("rss:" ++ "u")
        = some ⟨.feed ⟨[]⟩, 1⟩ ∧ (0 : Nat) < 1 ∧
      List.Chain (fun a b => b < a + 600000) 0 [5, 300000]) ∧
    (fetchOneFeed ⟨none, "u"⟩ "" [("rss:" ++ "u", ⟨.feed ⟨[]⟩, 1⟩)] 0
        (fun _ => .failure)).2.2 = false ∧
    (feedCallTimes ⟨none, "u"⟩ "" [("rss:" ++ "u", ⟨.feed ⟨[]⟩, 1⟩)] [0, 5, 300000]
        (fun _ => .failure)).2 = 0 :=
  have hch : List.Chain (fun a b => b < a + 600000) 0 [5, 300000] :=
    List.Chain.cons (by decide) (List.Chain.cons (by decide) List.Chain.nil)
  have h := C10_cache_hit_refreshes_expiry ⟨none, "u"⟩ ""
    [("rss:" ++ "u", ⟨.feed ⟨[]⟩, 1⟩)] ⟨[]⟩ 1 0 (fun _ => .failure) rfl (by decide)
  ⟨⟨rfl, by decide, hch⟩, h.1.1, h.2.1 [5, 300000] hch⟩

theorem ddg_key_ne_rss_key (p u : String) : "ddg:" ++ p ≠ "rss:" ++ u := by
  intro h
  have hd : ("ddg:" ++ p).data = ("rss:" ++ u).data := congrArg String.data h
  rw [String.data_append, String.data_append] at hd
  simp at hd

theorem rss_key_ne_wiki_key (u p : String) : "rss:" ++ u ≠ "wiki:" ++ p := by
  intro h
  have hd : ("rss:" ++ u).data = ("wiki:" ++ p).data := congrArg String.data h
  rw [String.data_append, String.data_append] at hd
  simp at hd

theorem ddg_key_ne_wiki_key (q p : String) : "ddg:" ++ q ≠ "wiki:" ++ p := by
  intro h
  have hd : ("ddg:" ++ q).data = ("wiki:" ++ p).data := congrArg String.data h
  rw [String.data_append, String.data_append] at hd
  simp at hd

/-- C5: when the summary upstream call fails — network error or timeout
(the thrown-failure branch) as well as a response whose first page lacks
an extract — the aggregation endpoint still answers 200; the `wikipedia`
field of the payload holds a fixed human-readable string instead of an
extract, and the feed and search results that were fetched successfully
are included in the same response. -/
theorem C5_summary_failure_still_200 (p pid : String) (feed : Feed) (pf : RawFeed)
    (rs : List SearchItem) (c : Cache) (now : Nat) (feedUp : String → FeedOutcome)
    (hp : p ≠ "")
    (hw : mapGet c ("wiki:" ++ p) = none)
    (hr : mapGet c ("rss:" ++ feed.url) = none)
    (hd : mapGet c ("ddg:" ++ p) = none)
    (hfu : feedUp feed.url = .success pf) :
    (generateHandler [feed] (some p) c now .failure feedUp (.success (some rs))).1
      = ⟨200, some (.str "Error fetching Wikipedia."),
          some [.ok (jsOr feed.name feed.url) (filterArticles pf p)],
          some (.search (ddgFormat rs)), none⟩ ∧
    (generateHandler [feed] (some p) c now (.success [(pid, none)]) feedUp
        (.success (some rs))).1
      = ⟨200, some (.str "No Wikipedia content found."),
          some [.ok (jsOr feed.name feed.url) (filterArticles pf p)],
          some (.search (ddgFormat rs)), none⟩ := by
  constructor
  · have hwiki : fetchWikipedia p c now .failure
        = (.str "Error fetching Wikipedia.", c, true) := by
      simp [fetchWikipedia, getCache_of_mapGet_none c _ now hw]
    have hone := fetchOneFeed_miss_success feed p c now feedUp pf hr hfu
    have hrss : fetchRSSFeeds [feed] p c now feedUp
        = ([.ok (jsOr feed.name feed.url) (filterArticles pf p)],
           mapSet c ("rss:" ++ feed.url) ⟨.feed pf, now + 600000⟩, 1) := by
      simp [fetchRSSFeeds, hone]
    have hd2 : mapGet (mapSet c ("rss:" ++ feed.url) ⟨.feed pf, now + 600000⟩)
        ("ddg:" ++ p) = none := by
      rw [mapGet_mapSet_other c _ _ _ (ddg_key_ne_rss_key p feed.url)]
      exact hd
    have hddg : fetchDuckDuckGo p
        (mapSet c ("rss:" ++ feed.url) ⟨.feed pf, now + 600000⟩) now
        (.success (some rs))
        = (.search (ddgFormat rs),
           setCache TTL_C (mapSet c ("rss:" ++ feed.url) ⟨.feed pf, now + 600000⟩)
             ("ddg:" ++ p) (.search (ddgFormat rs)) "ddg" now, true) := by
      simp [fetchDuckDuckGo, getCache_of_mapGet_none _ _ now hd2]
    simp [generateHandler, hp, hwiki, hrss, hddg]
  · have hwiki : fetchWikipedia p c now (.success [(pid, none)])
        = (.str "No Wikipedia content found.",
           mapSet c ("wiki:" ++ p)
             ⟨.str "No Wikipedia content found.", now + 3600000⟩, true) := by
      simp [fetchWikipedia, getCache_of_mapGet_none c _ now hw, jsOr, setCache, TTL_C]
    have hrW : mapGet (mapSet c ("wiki:" ++ p)
        ⟨.str "No Wikipedia content found.", now + 3600000⟩) ("rss:" ++ feed.url)
        = none := by
      rw [mapGet_mapSet_other c _ _ _ (rss_key_ne_wiki_key feed.url p)]
      exact hr
    have hone := fetchOneFeed_miss_success feed p
      (mapSet c ("wiki:" ++ p) ⟨.str "No Wikipedia content found.", now + 3600000⟩)
      now feedUp pf hrW hfu
    have hrss : fetchRSSFeeds [feed] p
        (mapSet c ("wiki:" ++ p) ⟨.str "No Wikipedia content found.", now + 3600000⟩)
        now feedUp
        = ([.ok (jsOr feed.name feed.url) (filterArticles pf p)],
           mapSet
             (mapSet c ("wiki:" ++ p)
               ⟨.str "No Wikipedia content found.", now + 3600000⟩)
             ("rss:" ++ feed.url) ⟨.feed pf, now + 600000⟩, 1) := by
      simp [fetchRSSFeeds, hone]
    have hd2 : mapGet
        (mapSet
          (mapSet c ("wiki:" ++ p) ⟨.str "No Wikipedia content found.", now + 3600000⟩)
          ("rss:" ++ feed.url) ⟨.feed pf, now + 600000⟩) ("ddg:" ++ p) = none := by
      rw [mapGet_mapSet_other _ _ _ _ (ddg_key_ne_rss_key p feed.url),
        mapGet_mapSet_other _ _ _ _ (ddg_key_ne_wiki_key p p)]
      exact hd
    have hddg : fetchDuckDuckGo p
        (mapSet
          (mapSet c ("wiki:" ++ p) ⟨.str "No Wikipedia content found.", now + 3600000⟩)
          ("rss:" ++ feed.url) ⟨.feed pf, now + 600000⟩) now (.success (some rs))
        = (.search (ddgFormat rs),
           setCache TTL_C
             (mapSet
               (mapSet c ("wiki:" ++ p)
                 ⟨.str "No Wikipedia content found.", now + 3600000⟩)
               ("rss:" ++ feed.url) ⟨.feed pf, now + 600000⟩)
             ("ddg:" ++ p) (.search (ddgFormat rs)) "ddg" now, true) := by
      simp [fetchDuckDuckGo, getCache_of_mapGet_none _ _ now hd2]
    simp [generateHandler, hp, hwiki, hrss, hddg]

/-- Witness for C5: prompt `Alpha` on the empty cache, a single feed whose
fetch succeeds with one item, and a successful search with one result. -/
theorem C5_summary_failure_still_200_witness :
    (("Alpha" : String) ≠ "" ∧
      mapGet ([] : Cache) ("wiki:" ++ "Alpha") = none ∧
      mapGet ([] : Cache) ("rss:" ++ "u") = none ∧
      mapGet ([] : Cache) ("ddg:" ++ "Alpha") = none) ∧
    ((generateHandler [⟨none, "u"⟩] (some "Alpha") [] 0 .failure
        (fun _ => .success ⟨[⟨some "Alpha news", none, none, none⟩]⟩)
        (.success (some [⟨some "t", some "l", some "s"⟩]))).1
      = ⟨200, some (.str "Error fetching Wikipedia."),
          some [.ok (jsOr none "u")
            (filterArticles ⟨[⟨some "Alpha news", none, none, none⟩]⟩ "Alpha")],
          some (.search (ddgFormat [⟨some "t", some "l", some "s"⟩])), none⟩ ∧
     (generateHandler [⟨none, "u"⟩] (some "Alpha") [] 0 (.success [("9", none)])
        (fun _ => .success ⟨[⟨some "Alpha news", none, none, none⟩]⟩)
        (.success (some [⟨some "t", some "l", some "s"⟩]))).1
      = ⟨200, some (.str "No Wikipedia content found."),
          some [.ok (jsOr none "u")
            (filterArticles ⟨[⟨some "Alpha news", none, none, none⟩]⟩ "Alpha")],
          some (.search (ddgFormat [⟨some "t", some "l", some "s"⟩])), none⟩) :=
  ⟨⟨by decide, rfl, rfl, rfl⟩,
    C5_summary_failure_still_200 "Alpha" "9" ⟨none, "u"⟩
      ⟨[⟨some "Alpha news", none, none, none⟩]⟩ [⟨some "t", some "l", some "s"⟩]
      [] 0 (fun _ => .success ⟨[⟨some "Alpha news", none, none, none⟩]⟩)
      (by decide) rfl rfl rfl rfl⟩

/-- C1 counterexample: the parameter lists `a=1, b=2` and `b=2, a=1` hold
exactly the same name-value pairs in different orders, yet the serialized
cache keys differ and the second request misses the entry written by the
first and makes a second upstream call. -/
theorem C1_counterexample_param_order :
    jsonStringify [("a", "1"), ("b", "2")] ≠ jsonStringify [("b", "2"), ("a", "1")] ∧
    (apiWikipediaA (apiWikipediaA [] [("a", "1"), ("b", "2")] (.ok "d")).2.1
        [("b", "2"), ("a", "1")] (.ok "d")).2.2 = true :=
  ⟨by decide, rfl⟩

/-- C1 amended: the cache key of the passthrough endpoint is the JSON
serialization of the query parameters in the order supplied, so two
requests with identical ordered parameter lists derive the same key and
the second hits the cache entry written by the first with no second
upstream call; permuting the parameters changes the key (counterexample
above). -/
theorem C1_amended_same_order_same_key (store : List (String × String))
    (params : List (String × String)) (d : String) (up2 : UpstreamHttp)
    (hmiss : mapGet store (jsonStringify params) = none) :
    (apiWikipediaA store params (.ok d)).2.2 = true ∧
    (apiWikipediaA (apiWikipediaA store params (.ok d)).2.1 params up2).1
      = ⟨200, d, none⟩ ∧
    (apiWikipediaA (apiWikipediaA store params (.ok d)).2.1 params up2).2.2 = false := by
  have h1 : apiWikipediaA store params (.ok d)
      = (⟨200, d, none⟩, mapSet store (jsonStringify params) d, true) := by
    simp [apiWikipediaA, hmiss]
  refine ⟨by simp [h1], ?_, ?_⟩ <;>
  · rw [h1]
    simp [apiWikipediaA, mapGet_mapSet_same store (jsonStringify params) d]

/-- Witness for C1 amended: the single parameter `titles=X` requested
twice in the same order. -/
theorem C1_amended_same_order_same_key_witness :
    mapGet ([] : List (String × String)) (jsonStringify [("titles", "X")]) = none ∧
    ((apiWikipediaA [] [("titles", "X")] (.ok "d")).2.2 = true ∧
      (apiWikipediaA (apiWikipediaA [] [("titles", "X")] (.ok "d")).2.1
          [("titles", "X")] (.ok "other")).1 = ⟨200, "d", none⟩ ∧
      (apiWikipediaA (apiWikipediaA [] [("titles", "X")] (.ok "d")).2.1
          [("titles", "X")] (.ok "other")).2.2 = false) :=
  ⟨rfl, C1_amended_same_order_same_key [] [("titles", "X")] "d" (.ok "other") rfl⟩

/-- C6 counterexample: in the variant A passthrough handler, an upstream
404 with an error body is answered 500 with no `details`, not with the
upstream's status and body as the claim states. -/
theorem C6_counterexample_mask_500 :
    (apiWikipediaA [] [("titles", "X")]
        (.errStatus 404 "Not Found" "upstream-body")).1.status = 500 ∧
    (apiWikipediaA [] [("titles", "X")]
        (.errStatus 404 "Not Found" "upstream-body")).1.details = none :=
  ⟨rfl, rfl⟩

/-- C6 amended: only the NodeCache variant of the passthrough endpoint
forwards an upstream non-success status code and includes the upstream
error body in `details`; the plain-Map variants answer every passthrough
failure, upstream non-success included, with a generic 500 and no
details. -/
theorem C6_amended_forwarding_per_variant (storeB : NodeCacheState)
    (storeA : List (String × String)) (params : List (String × String))
    (now s : Nat) (st b : String)
    (hB : nodeCacheGet storeB (jsonStringify params) now = none)
    (hA : mapGet storeA (jsonStringify params) = none) :
    ((apiWikipediaB storeB params now (.errStatus s st b)).1.status = s ∧
      (apiWikipediaB storeB params now (.errStatus s st b)).1.details = some b) ∧
    ((apiWikipediaA storeA params (.errStatus s st b)).1.status = 500 ∧
      (apiWikipediaA storeA params (.errStatus s st b)).1.details = none) := by
  constructor
  · simp [apiWikipediaB, hB]
  · simp [apiWikipediaA, hA]

/-- Witness for C6 amended: upstream 404 `Not Found` on empty caches. -/
theorem C6_amended_forwarding_per_variant_witness :
    (nodeCacheGet ([] : NodeCacheState) (jsonStringify [("titles", "X")]) 0 = none ∧
      mapGet ([] : List (String × String)) (jsonStringify [("titles", "X")]) = none) ∧
    (((apiWikipediaB [] [("titles", "X")] 0 (.errStatus 404 "Not Found" "b")).1.status
        = 404 ∧
      (apiWikipediaB [] [("titles", "X")] 0 (.errStatus 404 "Not Found" "b")).1.details
        = some "b") ∧
     ((apiWikipediaA [] [("titles", "X")] (.errStatus 404 "Not Found" "b")).1.status
        = 500 ∧
      (apiWikipediaA [] [("titles", "X")] (.errStatus 404 "Not Found" "b")).1.details
        = none)) :=
  ⟨⟨rfl, rfl⟩,
    C6_amended_forwarding_per_variant [] [] [("titles", "X")] 0 404 "Not Found" "b"
      rfl rfl⟩

theorem tryModels_eq (key : String) (models : List String)
    (out : String → String → AttemptOutcome)
    (h : ∀ m, (out key m).isMidStreamFail = false) :
    tryModels key models out
      = match firstSuccessChunks (models.map (fun m => (key, m))) out with
        | some cs => (cs, true)
        | none => ([], false) := by
  induction models with
  | nil => rfl
  | cons m rest ih =>
    rcases ho : out key m with _ | cs | cs
    · simp only [tryModels, List.map_cons, firstSuccessChunks, ho]
      exact ih
    · have := h m
      rw [ho] at this
      simp [AttemptOutcome.isMidStreamFail] at this
    · simp [tryModels, firstSuccessChunks, ho]

theorem firstSuccessChunks_append (a b : List (String × String))
    (out : String → String → AttemptOutcome) :
    firstSuccessChunks (a ++ b) out
      = match firstSuccessChunks a out with
        | some cs => some cs
        | none => firstSuccessChunks b out := by
  induction a with
  | nil => rfl
  | cons hd t ih =>
    obtain ⟨k, m⟩ := hd
    rcases ho : out k m with _ | cs | cs <;>
      simp [firstSuccessChunks, ho, ih]

theorem tryKeys_eq (keys models : List String)
    (out : String → String → AttemptOutcome)
    (h : ∀ k m, (out k m).isMidStreamFail = false) :
    tryKeys keys models out
      = match firstSuccessChunks (combos keys models) out with
        | some cs => (cs, true)
        | none => ([], false) := by
  induction keys with
  | nil => rfl
  | cons k rest ih =>
    have hm := tryModels_eq k models out (fun m => h k m)
    rw [combos, firstSuccessChunks_append]
    cases hfs : firstSuccessChunks (models.map fun m => (k, m)) out with
    | some cs => simp [tryKeys, hm, hfs]
    | none => simp [tryKeys, hm, hfs, ih]

/-- C4 counterexample: with one key and two models, the first model fails
mid-stream after the chunk `partial` was already written and the second
model succeeds with `good`; the caller's output is `partial, good`, so
bytes produced by an earlier failed attempt do appear ahead of the first
successful combination's chunks, contrary to the claim. -/
theorem C4_counterexample_midstream_leak :
    geminiGenerate ["k1"] ["m1", "m2"] outLeak = ["partial", "good"] ∧
    firstSuccessChunks (combos ["k1"] ["m1", "m2"]) outLeak = some ["good"] ∧
    geminiGenerate ["k1"] ["m1", "m2"] outLeak ≠ ["good"] :=
  ⟨rfl, rfl, by decide⟩

/-- C4 amended: the `(credential, model)` combinations are attempted in
deterministic key-outermost, model-innermost order; bytes of an attempt
that fails before producing any chunk never appear, so when every failure
occurs before streaming begins the caller receives exactly the first
successful combination's chunks in arrival order with no further
combination attempted, and the fixed terminal marker when every
combination fails; an attempt that fails mid-stream, however, leaves its
already-forwarded chunks in the output (counterexample above). -/
theorem C4_amended_first_success_streams (keys models : List String)
    (out : String → String → AttemptOutcome)
    (h : ∀ k m, (out k m).isMidStreamFail = false) :
    geminiGenerate keys models out
      = (firstSuccessChunks (combos keys models) out).getD
          ["Error: All Gemini models and API keys failed."] := by
  unfold geminiGenerate
  rw [tryKeys_eq keys models out h]
  cases hfs : firstSuccessChunks (combos keys models) out <;> simp [hfs]

/-- Witness for C4 amended: two keys and two models where `m1` always
fails before streaming and `m2` succeeds; the output is exactly the first
success's chunk. -/
theorem C4_amended_first_success_streams_witness :
    (∀ k m, (outMixed k m).isMidStreamFail = false) ∧
    geminiGenerate ["k1", "k2"] ["m1", "m2"] outMixed = ["ok-chunk"] :=
  have h0 : ∀ k m, (outMixed k m).isMidStreamFail = false := fun k m => by
    by_cases hm : m = "m1" <;> simp [outMixed, hm, AttemptOutcome.isMidStreamFail]
  ⟨h0, (C4_amended_first_success_streams ["k1", "k2"] ["m1", "m2"] outMixed h0).trans
    (by decide)⟩

end WikiProxy
